import Mathlib

/-!
# Cobolt laser device adapter: model builder, transport and shutter control

A shallow embedding of `Laser.cpp`, `CoboltOfficial.cpp` and `base.h`.

* `std::string` is `String`; the algorithms that walk a string character by
  character work on its list of characters (`String.data`).
* `std::string::find` returns a position or `npos`; here `Option Nat`, with
  `npos = none`.
* The device behind `LaserDevice::SendCommand` is stateful.  It is modelled by
  the function that gives, for the commands sent so far and the command sent
  now, the return code and the text left in `*response`.  The functions that
  talk to the device thread the list of commands sent.
* The property classes are declared in `Property.h` and its sibling headers,
  which this development does not embed: a property object is the record of
  the constructor it was made with and of the arguments of that constructor.
-/

namespace cobolt

/-! ## base.h -/

namespace return_code

def ok : Int := 0
def error : Int := 1
def invalid_property_value : Int := 3
def unsupported_command : Int := 11
def illegal_port_change : Int := 101001
def serial_port_undefined : Int := 101002
def laser_off : Int := 101003

end return_code

/-! ## std::string::find -/

/-- The value of `std::string::npos`: no position. -/
def npos : Option Nat := none

/-- Search of `str` in the remaining characters, `pos` being the position of the
first of them: the lowest position at which `str` starts. -/
def findFrom (str : List Char) : List Char → Nat → Option Nat
  | [], pos => if str = [] then some pos else none
  | c :: rest, pos =>
    if str.isPrefixOf (c :: rest) then some pos else findFrom str rest (pos + 1)

/-- The call `s.find( str )` of `std::string`: the position of the first
occurrence of `str` in `s`, or `npos`. -/
def find (s str : String) : Option Nat :=
  findFrom str.data s.data 0

/-! ## Laser.cpp: DecomposeModelString -/

/-- The loop of `Laser::DecomposeModelString` over the characters not yet
visited, with the local `token` and the output vector `modelTokens`. -/
def DecomposeModelStringLoop : List Char → List Char → List String → List String
  | [], _, modelTokens => modelTokens
  | c :: rest, token, modelTokens =>
    if c ≠ '-' then
      DecomposeModelStringLoop rest (token ++ [c]) modelTokens
    else if c = '\r' then
      -- push_back, break
      modelTokens ++ [String.mk token]
    else
      DecomposeModelStringLoop rest [] (modelTokens ++ [String.mk token])

/-- The function `Laser::DecomposeModelString`: the tokens pushed to `modelTokens`
(empty at the call in `Laser::Create`). -/
def DecomposeModelString (modelString : String) : List String :=
  DecomposeModelStringLoop modelString.data [] []

/-! ## The property objects -/

/-- A device-side code string with its presentation string, as in the aggregates
written `{ "0", "Constant Current" }` and read through `.guiValue`. -/
structure StringValueMap where
  commandValue : String
  guiValue : String
  deriving DecidableEq, Repr

/-- The template argument of `BasicProperty`, `BasicMutableProperty` and
`NumericProperty`. -/
inductive ValueType where
  | string
  | double
  deriving DecidableEq, Repr

/-- The two presentations of a `BoolProperty`: `BoolProperty::OnOff` and
`BoolProperty::EnableDisable`. -/
inductive BoolPropertyStereotype where
  | OnOff
  | EnableDisable
  deriving DecidableEq, Repr

/-- A property object: the constructor that `Laser.cpp` calls and the arguments
it passes, the device pointer apart (there is one device).  An enumeration
carries the values given to `RegisterValidValue`, in the order of the calls. -/
inductive Property where
  | StaticStringProperty (name value : String)
  | BasicProperty (type : ValueType) (name getCommand : String)
  | BasicMutableProperty (type : ValueType) (name getCommand setCommand : String)
  | NumericProperty (type : ValueType) (name getCommand setCommand : String) (min max : Rat)
  | BoolProperty (name : String) (stereotype : BoolPropertyStereotype)
      (getCommand setTrueCommand setFalseCommand : String)
  | EnumerationProperty (name getCommand setCommand : String)
      (validValues : List StringValueMap)
  | LaserPausedProperty (name : String)
  | LaserSimulatedPausedProperty (name : String)
  deriving DecidableEq, Repr

namespace Property

/-- The accessor `Property::GetName`. -/
def GetName : Property → String
  | StaticStringProperty name _ => name
  | BasicProperty _ name _ => name
  | BasicMutableProperty _ name _ _ => name
  | NumericProperty _ name _ _ _ _ => name
  | BoolProperty name _ _ _ _ => name
  | EnumerationProperty name _ _ _ => name
  | LaserPausedProperty name => name
  | LaserSimulatedPausedProperty name => name

/-- The call `property->RegisterValidValue( value )` on an enumeration. -/
def RegisterValidValue (value : StringValueMap) : Property → Property
  | EnumerationProperty name getCommand setCommand validValues =>
    EnumerationProperty name getCommand setCommand (validValues ++ [value])
  | p => p

end Property

/-- The value tables of namespace `value` that `Laser.cpp` reads; they are
declared in a header that this development does not embed, so their entries
are parameters. -/
structure Values where
  toggle_on : StringValueMap
  toggle_off : StringValueMap
  analog_impedance_low : StringValueMap
  analog_impedance_high : StringValueMap

/-- The device seen through `LaserDevice::SendCommand( command, &response )`
with `response` empty before the call: for the commands sent so far and the
command sent now, the return code and the text in `response` after the call. -/
structure LaserDevice where
  SendCommand : List String → String → Int × String

/-- The assignment `properties_[ name ] = property`: the entry of that name is
replaced, or a new entry is added. -/
def mapAssign : List (String × Property) → String → Property → List (String × Property)
  | [], name, property => [(name, property)]
  | (k, v) :: rest, name, property =>
    if k = name then (k, property) :: rest else (k, v) :: mapAssign rest name property

/-- The call `properties_.find( name )`: the property of that name, if any. -/
def mapFind : List (String × Property) → String → Option Property
  | [], _ => none
  | (k, v) :: rest, name => if k = name then some v else mapFind rest name

/-! ## Laser.cpp: the Laser object -/

/-- The members of `Laser`.  The device pointer is not kept: the device is an
argument of the functions that use it.  The two property pointers are unset
until `CreateToggleProperty` and `CreatePausedProperty` run.
Modelled from the spec: `properties_`, declared in `Laser.h`, is a mapping from
property name to property in which names are unique and the last registration
for a name wins. -/
structure Laser where
  name_ : String
  wavelength_ : String
  maxCurrentSetpoint_ : Rat
  maxPowerSetpoint_ : Rat
  currentUnit_ : String
  powerUnit_ : String
  properties_ : List (String × Property)
  toggleProperty_ : Option Property
  pausedProperty_ : Option Property
  deriving DecidableEq, Repr

namespace Laser

def Milliamperes : String := "mA"
def Amperes : String := "A"
def Milliwatts : String := "mW"
def Watts : String := "W"

def GetName (laser : Laser) : String := laser.name_

def GetWavelength (laser : Laser) : String := laser.wavelength_

def RegisterPublicProperty (laser : Laser) (property : Property) : Laser :=
  { laser with properties_ := mapAssign laser.properties_ property.GetName property }

def CreateNameProperty (laser : Laser) : Laser :=
  laser.RegisterPublicProperty (.StaticStringProperty "Name" laser.GetName)

def CreateModelProperty (laser : Laser) : Laser :=
  laser.RegisterPublicProperty (.BasicProperty .string "Model" "glm?")

def CreateWavelengthProperty (laser : Laser) : Laser :=
  laser.RegisterPublicProperty (.StaticStringProperty "Wavelength" laser.GetWavelength)

def CreateSerialNumberProperty (laser : Laser) : Laser :=
  laser.RegisterPublicProperty (.BasicProperty .string "Serial Number" "gsn?")

def CreateFirmwareVersionProperty (laser : Laser) : Laser :=
  laser.RegisterPublicProperty (.BasicProperty .string "Firmware Version" "gfv?")

def CreateOperatingHoursProperty (laser : Laser) : Laser :=
  laser.RegisterPublicProperty (.BasicProperty .string "Operating Hours" "hrs?")

def CreateCurrentSetpointProperty (laser : Laser) : Laser :=
  laser.RegisterPublicProperty
    (.NumericProperty .double ("Current Setpoint [" ++ laser.currentUnit_ ++ "]") "glc?" "slc"
      0 laser.maxCurrentSetpoint_)

def CreateCurrentReadingProperty (laser : Laser) : Laser :=
  laser.RegisterPublicProperty
    (.BasicProperty .double ("Measured Current [" ++ laser.currentUnit_ ++ "]") "i?")

def CreatePowerSetpointProperty (laser : Laser) : Laser :=
  laser.RegisterPublicProperty
    (.NumericProperty .double ("Power Setpoint [" ++ laser.powerUnit_ ++ "]") "glp?" "slp"
      0 laser.maxPowerSetpoint_)

def CreatePowerReadingProperty (laser : Laser) : Laser :=
  laser.RegisterPublicProperty
    (.BasicProperty .double ("Power Reading [" ++ laser.powerUnit_ ++ "]") "pa?")

def CreateToggleProperty (laser : Laser) : Laser :=
  let toggleProperty : Property := .BoolProperty "On-Off Switch" .OnOff "l?" "l1" "l0"
  ({ laser with toggleProperty_ := some toggleProperty }).RegisterPublicProperty toggleProperty

/-- The function `Laser::IsPauseCommandSupported`: the probe is sent, its return
code is dropped, the answer is whether the response holds `OK`.  The second
component is the list of commands sent, the probe included. -/
def IsPauseCommandSupported (device : LaserDevice) (sent : List String) : Bool × List String :=
  let response := (device.SendCommand sent "l0r").2
  (decide (find response "OK" ≠ npos), sent ++ ["l0r"])

def CreatePausedProperty (laser : Laser) (device : LaserDevice) (sent : List String) :
    Laser × List String :=
  let (supported, sent) := IsPauseCommandSupported device sent
  let pausedProperty : Property :=
    if supported then .LaserPausedProperty "Paused" else .LaserSimulatedPausedProperty "Paused"
  (({ laser with pausedProperty_ := some pausedProperty }).RegisterPublicProperty pausedProperty,
    sent)

def CreateRunModeProperty (laser : Laser) (supportedRunModes : List StringValueMap) : Laser :=
  let property : Property := .EnumerationProperty "Run Mode" "gam?" "sam" []
  let property := supportedRunModes.foldl (fun p v => p.RegisterValidValue v) property
  laser.RegisterPublicProperty property

def CreateDigitalModulationProperty (laser : Laser) : Laser :=
  laser.RegisterPublicProperty
    (.BoolProperty "Digital Modulation" .EnableDisable "gdmes?" "sdmes 1" "sdmes 0")

def CreateAnalogModulationFlagProperty (laser : Laser) : Laser :=
  laser.RegisterPublicProperty
    (.BoolProperty "Analog Modulation" .EnableDisable "games?" "sames 1" "sames 0")

def CreateModulationPowerSetpointProperty (laser : Laser) : Laser :=
  laser.RegisterPublicProperty
    (.BasicMutableProperty .double "Modulation Power Setpoint" "glmp?" "slmp")

def CreateAnalogImpedanceProperty (values : Values) (laser : Laser) : Laser :=
  let property : Property := .EnumerationProperty "Analog Impedance" "galis?" "salis" []
  let property := property.RegisterValidValue values.analog_impedance_low
  let property := property.RegisterValidValue values.analog_impedance_high
  laser.RegisterPublicProperty property

/-- The constructor `Laser::Laser( name, device )`: the member initialisers, then
the eight calls of its body. -/
def new (name : String) (device : LaserDevice) (sent : List String) : Laser × List String :=
  let laser : Laser :=
    { name_ := name
      wavelength_ := "Unknown"
      maxCurrentSetpoint_ := 0
      maxPowerSetpoint_ := 0
      currentUnit_ := "?"
      powerUnit_ := "?"
      properties_ := []
      toggleProperty_ := none
      pausedProperty_ := none }
  let laser := laser.CreateNameProperty
  let laser := laser.CreateModelProperty
  let laser := laser.CreateWavelengthProperty
  let laser := laser.CreateSerialNumberProperty
  let laser := laser.CreateFirmwareVersionProperty
  let laser := laser.CreateOperatingHoursProperty
  let (laser, sent) := laser.CreatePausedProperty device sent
  let laser := laser.CreateToggleProperty
  (laser, sent)

/-- The branch of `Laser::Create` for an identifier that holds `-06-`. -/
def Create06 (values : Values) (device : LaserDevice) (sent : List String) :
    Laser × List String :=
  let (laser, sent) := Laser.new "06-DPL" device sent
  let runModes : List StringValueMap :=
    [⟨"0", "Constant Current"⟩, ⟨"1", "Constant Power"⟩, ⟨"2", "Modulation"⟩]
  let laser := { laser with currentUnit_ := Milliamperes }
  let laser := { laser with powerUnit_ := Milliwatts }
  let laser := { laser with maxCurrentSetpoint_ := 3 }
  let laser := { laser with maxPowerSetpoint_ := 100 }
  let laser := laser.CreateNameProperty
  let laser := laser.CreateModelProperty
  let laser := laser.CreateWavelengthProperty
  let laser := laser.CreateSerialNumberProperty
  let laser := laser.CreateFirmwareVersionProperty
  let laser := laser.CreateOperatingHoursProperty
  let laser := laser.CreateCurrentSetpointProperty
  let laser := laser.CreateCurrentReadingProperty
  let laser := laser.CreatePowerSetpointProperty
  let laser := laser.CreatePowerReadingProperty
  let laser := laser.CreateToggleProperty
  let (laser, sent) := laser.CreatePausedProperty device sent
  let laser := laser.CreateRunModeProperty runModes
  let laser := laser.CreateDigitalModulationProperty
  let laser := laser.CreateAnalogModulationFlagProperty
  let laser := laser.CreateModulationPowerSetpointProperty
  let laser := laser.CreateAnalogImpedanceProperty values
  (laser, sent)

/-- The branch of `Laser::Create` for an identifier that holds `-05-` and
not `-06-`. -/
def Create05 (device : LaserDevice) (sent : List String) : Laser × List String :=
  let (laser, sent) := Laser.new "Compact 05" device sent
  let runModes : List StringValueMap :=
    [⟨"0", "Constant Current"⟩, ⟨"1", "Constant Power"⟩]
  let laser := { laser with currentUnit_ := Amperes }
  let laser := { laser with powerUnit_ := Milliwatts }
  let laser := { laser with maxCurrentSetpoint_ := 3 }
  let laser := { laser with maxPowerSetpoint_ := 100 }
  let laser := laser.CreateNameProperty
  let laser := laser.CreateModelProperty
  let laser := laser.CreateWavelengthProperty
  let laser := laser.CreateSerialNumberProperty
  let laser := laser.CreateFirmwareVersionProperty
  let laser := laser.CreateOperatingHoursProperty
  let laser := laser.CreateCurrentSetpointProperty
  let laser := laser.CreateCurrentReadingProperty
  let laser := laser.CreatePowerSetpointProperty
  let laser := laser.CreatePowerReadingProperty
  let laser := laser.CreateToggleProperty
  let (laser, sent) := laser.CreatePausedProperty device sent
  let laser := laser.CreateRunModeProperty runModes
  (laser, sent)

/-- The function `Laser::Create`: `none` is the `NULL` it returns when the
identification command fails.  The second component is the list of commands
sent to the device, those sent before the call included.  The log message at
the end goes to the logger and is left out. -/
def Create (values : Values) (device : LaserDevice) (sent : List String) :
    Option Laser × List String :=
  let (reply, modelString) := device.SendCommand sent "glm?"
  let sent := sent ++ ["glm?"]
  if reply ≠ return_code.ok then
    (none, sent)
  else
    let modelTokens := DecomposeModelString modelString
    let (laser, sent) :=
      if find modelString "-06-" ≠ npos then
        Create06 values device sent
      else if find modelString "-05-" ≠ npos then
        Create05 device sent
      else
        Laser.new "Unknown" device sent
    let laser :=
      if modelTokens.length > 0 then
        { laser with wavelength_ := modelTokens.headD "" }
      else
        { laser with wavelength_ := "Unknown" }
    (some laser, sent)

end Laser

/-! ## Laser.cpp: the toggle and the pause -/

/-- What `Laser.cpp` and `CoboltOfficial.cpp` call on the state `σ` of the device
and the host without defining it: the virtual `Get<std::string>` and `Set` of a
property object (the callers drop the result of `Set`), the blocking wait
`CDeviceUtils::SleepMs`, and the floating-point conversion
`(long) ( deltaT + 0.5f )` of a `double`, whose values are the type `δ`. -/
structure Host (σ δ : Type) where
  Get : Property → σ → String × σ
  Set : Property → String → σ → σ
  SleepMs : Int → σ → σ
  toLong : δ → Int

namespace Laser

variable {σ δ : Type}

/-- The function `Laser::SetOn`; `none` when the toggle pointer is unset. -/
def SetOn (values : Values) (host : Host σ δ) (laser : Laser) (on_ : Bool) (s : σ) : Option σ :=
  match laser.toggleProperty_ with
  | none => none
  | some toggleProperty =>
    some (host.Set toggleProperty
      (if on_ then values.toggle_on.guiValue else values.toggle_off.guiValue) s)

/-- The function `Laser::SetPaused`; `none` when the pause pointer is unset. -/
def SetPaused (values : Values) (host : Host σ δ) (laser : Laser) (paused : Bool) (s : σ) :
    Option σ :=
  match laser.pausedProperty_ with
  | none => none
  | some pausedProperty =>
    some (host.Set pausedProperty
      (if paused then values.toggle_on.guiValue else values.toggle_off.guiValue) s)

/-- The function `Laser::IsOn`; `none` when the toggle pointer is unset. -/
def IsOn (values : Values) (host : Host σ δ) (laser : Laser) (s : σ) : Option (Bool × σ) :=
  match laser.toggleProperty_ with
  | none => none
  | some toggleProperty =>
    let (value, s) := host.Get toggleProperty s
    some (decide (value = values.toggle_on.guiValue), s)

/-- The function `Laser::IsPaused`; `none` when the pause pointer is unset. -/
def IsPaused (values : Values) (host : Host σ δ) (laser : Laser) (s : σ) : Option (Bool × σ) :=
  match laser.pausedProperty_ with
  | none => none
  | some pausedProperty =>
    let (value, s) := host.Get pausedProperty s
    some (decide (value = values.toggle_on.guiValue), s)

end Laser

/-! ## CoboltOfficial.cpp -/

namespace CoboltOfficial

variable {σ δ : Type}

/-- The function `CoboltOfficial::SetOpen` on the laser `laser_` points to. -/
def SetOpen (values : Values) (host : Host σ δ) (laser_ : Laser) (open_ : Bool) (s : σ) :
    Option (Int × σ) :=
  match laser_.IsOn values host s with
  | none => none
  | some (isOn, s) =>
    if !isOn then
      some (return_code.laser_off, s)
    else
      match (if open_ then laser_.SetPaused values host false s
             else laser_.SetPaused values host true s) with
      | none => none
      | some s => some (return_code.ok, s)

/-- The function `CoboltOfficial::GetOpen`: the value written to `open`, with
the return code. -/
def GetOpen (values : Values) (host : Host σ δ) (laser_ : Laser) (s : σ) :
    Option ((Int × Bool) × σ) :=
  match laser_.IsOn values host s with
  | none => none
  | some (false, s) => some ((return_code.ok, false), s)
  | some (true, s) =>
    match laser_.IsPaused values host s with
    | none => none
    | some (isPaused, s) => some ((return_code.ok, !isPaused), s)

/-- The function `CoboltOfficial::Fire`. -/
def Fire (values : Values) (host : Host σ δ) (laser_ : Laser) (deltaT : δ) (s : σ) :
    Option (Int × σ) :=
  match SetOpen values host laser_ true s with
  | none => none
  | some (reply, s) =>
    if reply = return_code.ok then
      let s := host.SleepMs (host.toLong deltaT) s
      SetOpen values host laser_ false s
    else
      some (reply, s)

/-- The two calls of the serial base class that `SendCommand` makes, on the state
`σ` of the channel: `SendSerialCommand( port, command, terminator )` gives a
return code, `GetSerialAnswer( port, terminator, answer )` a return code and the
text it leaves in `answer`. -/
structure SerialPort (σ : Type) where
  SendSerialCommand : String → String → String → σ → Int × σ
  GetSerialAnswer : String → String → σ → (Int × String) × σ

/-- The function `CoboltOfficial::SendCommand`.  The argument `response` is `none`
for a `NULL` pointer and else the text the pointer leads to; the result has the
return code and the text behind the pointer after the call.  The log messages
are left out. -/
def SendCommand (serial : SerialPort σ) (port_ : String) (command : String)
    (response : Option String) (s : σ) : (Int × Option String) × σ :=
  let (reply, s) := serial.SendSerialCommand port_ command "\r" s
  if reply ≠ return_code.ok then
    ((reply, response), s)
  else
    match response with
    | none => ((reply, none), s)
    | some _ =>
      let ((reply, answer), s) := serial.GetSerialAnswer port_ "\r\n" s
      if reply ≠ return_code.ok then
        ((reply, some answer), s)
      else if find answer "error" ≠ npos then
        ((return_code.unsupported_command, some answer), s)
      else
        ((reply, some answer), s)

end CoboltOfficial

/-! ## Concrete devices and hosts for the examples -/

namespace Examples

/-- Value tables for the examples. -/
def values : Values :=
  { toggle_on := ⟨"1", "On"⟩
    toggle_off := ⟨"0", "Off"⟩
    analog_impedance_low := ⟨"0", "low"⟩
    analog_impedance_high := ⟨"1", "high"⟩ }

/-- A device that answers `glm?` with `glm` and the n-th `l0r` with the n-th
entry of `probes`; any other command, and a probe beyond the list, fails and
leaves the response empty. -/
def device (glm : Int × String) (probes : List (Int × String)) : LaserDevice where
  SendCommand sent command :=
    if command = "glm?" then glm
    else if command = "l0r" then probes.getD (sent.count "l0r") (return_code.error, "")
    else (return_code.error, "")

/-- A call that reaches the host. -/
inductive HostCall where
  | Get (name : String)
  | Set (name value : String)
  | SleepMs (ms : Int)
  deriving DecidableEq, Repr

/-- The state of a host that keeps the toggle and the pause as two booleans
and logs the calls it gets. -/
structure ShutterState where
  toggle : Bool
  pause : Bool
  calls : List HostCall
  deriving DecidableEq, Repr

def presentation (b : Bool) : String :=
  if b then values.toggle_on.guiValue else values.toggle_off.guiValue

/-- A host whose properties named `On-Off Switch` and `Paused` read and write
the two booleans of the state, whose wait leaves them as they are, and whose
durations are whole milliseconds. -/
def host : Host ShutterState Nat where
  Get property s :=
    let s1 := { s with calls := s.calls ++ [.Get property.GetName] }
    if property.GetName = "On-Off Switch" then (presentation s.toggle, s1)
    else if property.GetName = "Paused" then (presentation s.pause, s1)
    else ("", s1)
  Set property value s :=
    let s1 := { s with calls := s.calls ++ [.Set property.GetName value] }
    if property.GetName = "On-Off Switch" then
      { s1 with toggle := decide (value = values.toggle_on.guiValue) }
    else if property.GetName = "Paused" then
      { s1 with pause := decide (value = values.toggle_on.guiValue) }
    else s1
  SleepMs ms s := { s with calls := s.calls ++ [.SleepMs ms] }
  toLong deltaT := Int.ofNat deltaT

/-- The laser of an identifier without family, built on a device without
pause command. -/
def laser : Laser :=
  (Laser.new "Unknown" (device (return_code.ok, "") []) []).1

/-- A serial channel that accepts every command and answers `answer`; its
state counts the calls. -/
def serial (answer : String) : CoboltOfficial.SerialPort Nat where
  SendSerialCommand _ _ _ n := (return_code.ok, n + 1)
  GetSerialAnswer _ _ n := ((return_code.ok, answer), n + 1)

end Examples


/-! ## Substring search -/

theorem findFrom_ne_none_iff (str : List Char) (l : List Char) (pos : Nat) :
    findFrom str l pos ≠ none ↔ str <:+: l := by
  induction l generalizing pos with
  | nil =>
    unfold findFrom
    by_cases h : str = []
    · simp [h]
    · simp [h]
  | cons c rest ih =>
    unfold findFrom
    by_cases h : str.isPrefixOf (c :: rest) = true
    · have hp : str <+: c :: rest := List.isPrefixOf_iff_prefix.mp h
      simp [h, hp.isInfix]
    · have hp : ¬ str <+: c :: rest := fun hp => h (List.isPrefixOf_iff_prefix.mpr hp)
      rw [if_neg h, ih, List.infix_cons_iff]
      simp [hp]

/-- The test `s.find( str ) != std::string::npos` holds exactly when `str` occurs
in `s` as a block of consecutive characters. -/
theorem find_ne_npos_iff (s str : String) : find s str ≠ npos ↔ str.data <:+: s.data :=
  findFrom_ne_none_iff str.data s.data 0

/-! ## Laser::Create, branch by branch -/

namespace Laser

theorem IsPauseCommandSupported_fst (device : LaserDevice) (sent : List String) :
    (IsPauseCommandSupported device sent).1 = true ↔
      "OK".data <:+: (device.SendCommand sent "l0r").2.data := by
  simp only [IsPauseCommandSupported, decide_eq_true_eq]
  exact find_ne_npos_iff _ _

theorem Create_fail (values : Values) (device : LaserDevice) (sent : List String)
    (h : (device.SendCommand sent "glm?").1 ≠ return_code.ok) :
    Create values device sent = (none, sent ++ ["glm?"]) := by
  rcases hglm : device.SendCommand sent "glm?" with ⟨reply, m⟩
  rw [hglm] at h
  simp only [Create, hglm]
  rw [if_pos h]

/-- On an identifier that holds `-06-`, `Create` gives the laser of the first
branch with a wavelength assigned. -/
theorem Create_06 (values : Values) (device : LaserDevice) (sent : List String)
    (hok : (device.SendCommand sent "glm?").1 = return_code.ok)
    (h6 : "-06-".data <:+: (device.SendCommand sent "glm?").2.data) :
    ∃ wavelength, Create values device sent =
      (some { (Create06 values device (sent ++ ["glm?"])).1 with wavelength_ := wavelength },
        (Create06 values device (sent ++ ["glm?"])).2) := by
  rcases hglm : device.SendCommand sent "glm?" with ⟨reply, m⟩
  rw [hglm] at hok h6
  simp only at hok h6
  subst hok
  rw [← find_ne_npos_iff] at h6
  simp only [Create, hglm, ne_eq, not_true_eq_false, if_false]
  rw [if_pos h6]
  split_ifs
  · exact ⟨_, rfl⟩
  · exact ⟨_, rfl⟩

/-- On an identifier that holds `-05-` and not `-06-`, `Create` gives the laser of
the second branch with a wavelength assigned. -/
theorem Create_05 (values : Values) (device : LaserDevice) (sent : List String)
    (hok : (device.SendCommand sent "glm?").1 = return_code.ok)
    (h6 : ¬ "-06-".data <:+: (device.SendCommand sent "glm?").2.data)
    (h5 : "-05-".data <:+: (device.SendCommand sent "glm?").2.data) :
    ∃ wavelength, Create values device sent =
      (some { (Create05 device (sent ++ ["glm?"])).1 with wavelength_ := wavelength },
        (Create05 device (sent ++ ["glm?"])).2) := by
  rcases hglm : device.SendCommand sent "glm?" with ⟨reply, m⟩
  rw [hglm] at hok h6 h5
  simp only at hok h6 h5
  subst hok
  rw [← find_ne_npos_iff] at h6 h5
  simp only [Create, hglm, ne_eq, not_true_eq_false, if_false]
  rw [if_neg h6, if_pos h5]
  split_ifs
  · exact ⟨_, rfl⟩
  · exact ⟨_, rfl⟩

/-- On an identifier that holds neither `-06-` nor `-05-`, `Create` gives the
laser of the constructor with a wavelength assigned. -/
theorem Create_unknown (values : Values) (device : LaserDevice) (sent : List String)
    (hok : (device.SendCommand sent "glm?").1 = return_code.ok)
    (h6 : ¬ "-06-".data <:+: (device.SendCommand sent "glm?").2.data)
    (h5 : ¬ "-05-".data <:+: (device.SendCommand sent "glm?").2.data) :
    ∃ wavelength, Create values device sent =
      (some { (Laser.new "Unknown" device (sent ++ ["glm?"])).1 with wavelength_ := wavelength },
        (Laser.new "Unknown" device (sent ++ ["glm?"])).2) := by
  rcases hglm : device.SendCommand sent "glm?" with ⟨reply, m⟩
  rw [hglm] at hok h6 h5
  simp only at hok h6 h5
  subst hok
  rw [← find_ne_npos_iff] at h6 h5
  simp only [Create, hglm, ne_eq, not_true_eq_false, if_false]
  rw [if_neg h6, if_neg h5]
  split_ifs
  · exact ⟨_, rfl⟩
  · exact ⟨_, rfl⟩

theorem Create06_fields (values : Values) (device : LaserDevice) (sent : List String) :
    (Create06 values device sent).1.name_ = "06-DPL" ∧
    (Create06 values device sent).1.currentUnit_ = "mA" ∧
    (Create06 values device sent).1.powerUnit_ = "mW" ∧
    (Create06 values device sent).1.maxCurrentSetpoint_ = 3 ∧
    (Create06 values device sent).1.maxPowerSetpoint_ = 100 := by
  unfold Create06 Laser.new CreatePausedProperty
  generalize IsPauseCommandSupported device sent = r1
  rcases r1 with ⟨b1, s1⟩
  dsimp only
  generalize IsPauseCommandSupported device s1 = r2
  rcases r2 with ⟨b2, s2⟩
  exact ⟨rfl, rfl, rfl, rfl, rfl⟩

theorem Create05_fields (device : LaserDevice) (sent : List String) :
    (Create05 device sent).1.name_ = "Compact 05" ∧
    (Create05 device sent).1.currentUnit_ = "A" ∧
    (Create05 device sent).1.powerUnit_ = "mW" ∧
    (Create05 device sent).1.maxCurrentSetpoint_ = 3 ∧
    (Create05 device sent).1.maxPowerSetpoint_ = 100 := by
  unfold Create05 Laser.new CreatePausedProperty
  generalize IsPauseCommandSupported device sent = r1
  rcases r1 with ⟨b1, s1⟩
  dsimp only
  generalize IsPauseCommandSupported device s1 = r2
  rcases r2 with ⟨b2, s2⟩
  exact ⟨rfl, rfl, rfl, rfl, rfl⟩

theorem new_fields (name : String) (device : LaserDevice) (sent : List String) :
    (Laser.new name device sent).1.name_ = name ∧
    (Laser.new name device sent).1.currentUnit_ = "?" ∧
    (Laser.new name device sent).1.powerUnit_ = "?" ∧
    (Laser.new name device sent).1.maxCurrentSetpoint_ = 0 ∧
    (Laser.new name device sent).1.maxPowerSetpoint_ = 0 := by
  unfold Laser.new CreatePausedProperty
  generalize IsPauseCommandSupported device sent = r1
  rcases r1 with ⟨b1, s1⟩
  exact ⟨rfl, rfl, rfl, rfl, rfl⟩

end Laser

/-- When `glm?` returns ok, `Create` returns a laser. -/
theorem Laser.Create_some (values : Values) (device : LaserDevice) (sent : List String)
    (hok : (device.SendCommand sent "glm?").1 = return_code.ok) :
    ∃ laser, (Laser.Create values device sent).1 = some laser := by
  by_cases h6 : "-06-".data <:+: (device.SendCommand sent "glm?").2.data
  · obtain ⟨w, hw⟩ := Laser.Create_06 values device sent hok h6
    exact ⟨_, congrArg Prod.fst hw⟩
  · by_cases h5 : "-05-".data <:+: (device.SendCommand sent "glm?").2.data
    · obtain ⟨w, hw⟩ := Laser.Create_05 values device sent hok h6 h5
      exact ⟨_, congrArg Prod.fst hw⟩
    · obtain ⟨w, hw⟩ := Laser.Create_unknown values device sent hok h6 h5
      exact ⟨_, congrArg Prod.fst hw⟩

/-! ## The claims on Laser::Create and DecomposeModelString -/

/-- C1: when `glm?` returns ok, `Laser::Create` returns a model whose family
follows from the identifier by substring match in fixed priority: an identifier
that holds `-06-` (whether or not it holds `-05-` too) gives name `06-DPL`,
current unit `mA`, power unit `mW` and the ceilings 3 and 100; else one that
holds `-05-` gives name `Compact 05`, current unit `A`, power unit `mW` and the
same ceilings; else the name is `Unknown`, both units are `?` and both ceilings
are 0. -/
theorem Create_classifies_family (values : Values) (device : LaserDevice) (sent : List String)
    (hok : (device.SendCommand sent "glm?").1 = return_code.ok) :
    ∃ laser, (Laser.Create values device sent).1 = some laser ∧
      ("-06-".data <:+: (device.SendCommand sent "glm?").2.data →
        laser.name_ = "06-DPL" ∧ laser.currentUnit_ = "mA" ∧ laser.powerUnit_ = "mW" ∧
        laser.maxCurrentSetpoint_ = 3 ∧ laser.maxPowerSetpoint_ = 100) ∧
      (¬ "-06-".data <:+: (device.SendCommand sent "glm?").2.data →
        "-05-".data <:+: (device.SendCommand sent "glm?").2.data →
        laser.name_ = "Compact 05" ∧ laser.currentUnit_ = "A" ∧ laser.powerUnit_ = "mW" ∧
        laser.maxCurrentSetpoint_ = 3 ∧ laser.maxPowerSetpoint_ = 100) ∧
      (¬ "-06-".data <:+: (device.SendCommand sent "glm?").2.data →
        ¬ "-05-".data <:+: (device.SendCommand sent "glm?").2.data →
        laser.name_ = "Unknown" ∧ laser.currentUnit_ = "?" ∧ laser.powerUnit_ = "?" ∧
        laser.maxCurrentSetpoint_ = 0 ∧ laser.maxPowerSetpoint_ = 0) := by
  by_cases h6 : "-06-".data <:+: (device.SendCommand sent "glm?").2.data
  · obtain ⟨w, hw⟩ := Laser.Create_06 values device sent hok h6
    refine ⟨_, congrArg Prod.fst hw, fun _ => ?_, fun h => absurd h6 h, fun h => absurd h6 h⟩
    dsimp only
    exact Laser.Create06_fields values device _
  · by_cases h5 : "-05-".data <:+: (device.SendCommand sent "glm?").2.data
    · obtain ⟨w, hw⟩ := Laser.Create_05 values device sent hok h6 h5
      refine ⟨_, congrArg Prod.fst hw, fun h => absurd h h6, fun _ _ => ?_,
        fun _ h => absurd h5 h⟩
      dsimp only
      exact Laser.Create05_fields device _
    · obtain ⟨w, hw⟩ := Laser.Create_unknown values device sent hok h6 h5
      refine ⟨_, congrArg Prod.fst hw, fun h => absurd h h6, fun _ h => absurd h h5,
        fun _ _ => ?_⟩
      dsimp only
      exact Laser.new_fields "Unknown" device _

/-- C1, at the identifier `0532-06-05-0100`, which holds both `-06-` and
`-05-`: the model is of family `06-DPL`. -/
theorem Create_classifies_family_witness :
    (Examples.device (return_code.ok, "0532-06-05-0100") []).SendCommand [] "glm?" =
        (return_code.ok, "0532-06-05-0100") ∧
      "-05-".data <:+: "0532-06-05-0100".data ∧
      ∃ laser,
        (Laser.Create Examples.values
          (Examples.device (return_code.ok, "0532-06-05-0100") []) []).1 = some laser ∧
        laser.name_ = "06-DPL" ∧ laser.currentUnit_ = "mA" ∧ laser.powerUnit_ = "mW" ∧
        laser.maxCurrentSetpoint_ = 3 ∧ laser.maxPowerSetpoint_ = 100 := by
  refine ⟨rfl, by decide, ?_⟩
  obtain ⟨laser, hl, h6, -, -⟩ := Create_classifies_family Examples.values
    (Examples.device (return_code.ok, "0532-06-05-0100") []) [] rfl
  exact ⟨laser, hl, h6 (by decide)⟩

/-- C2: `Laser::Create` returns no model exactly when `glm?` does not return ok,
and then `glm?` is the only command it has sent; so when `glm?` returns ok a model
is returned, whatever the identifier text and whatever the device answers to
the pause probe. -/
theorem Create_none_iff (values : Values) (device : LaserDevice) (sent : List String) :
    ((Laser.Create values device sent).1 = none ↔
        (device.SendCommand sent "glm?").1 ≠ return_code.ok) ∧
      ((device.SendCommand sent "glm?").1 ≠ return_code.ok →
        (Laser.Create values device sent).2 = sent ++ ["glm?"]) ∧
      ((device.SendCommand sent "glm?").1 = return_code.ok →
        ∃ laser, (Laser.Create values device sent).1 = some laser) := by
  have hsome : (device.SendCommand sent "glm?").1 = return_code.ok →
      ∃ laser, (Laser.Create values device sent).1 = some laser :=
    Laser.Create_some values device sent
  refine ⟨⟨fun hnone hok => ?_, fun h => ?_⟩, fun h => ?_, hsome⟩
  · obtain ⟨laser, hl⟩ := hsome hok
    rw [hl] at hnone
    exact Option.noConfusion hnone
  · rw [Laser.Create_fail values device sent h]
  · rw [Laser.Create_fail values device sent h]


/-! ## DecomposeModelString against the segments of the identifier -/

theorem DecomposeModelStringLoop_eq (l token : List Char) (modelTokens : List String) :
    DecomposeModelStringLoop l token modelTokens =
      modelTokens ++
        (((l.splitOn '-').modifyHead (fun seg => token ++ seg)).dropLast).map String.mk := by
  induction l generalizing token modelTokens with
  | nil => simp [DecomposeModelStringLoop, List.splitOn]
  | cons c rest ih =>
    unfold DecomposeModelStringLoop
    by_cases hc : c = '-'
    · subst hc
      have hne : List.splitOn '-' rest ≠ [] := List.splitOnP_ne_nil _ _
      rw [if_neg (by simp), if_neg (by decide), ih]
      obtain ⟨seg, segs, hs⟩ := List.exists_cons_of_ne_nil hne
      simp only [List.splitOn] at hs
      simp [List.splitOn, List.splitOnP_cons, hs, List.modifyHead]
    · rw [if_pos hc, ih]
      simp [List.splitOn, List.splitOnP_cons, hc]
      rfl

/-- The tokens `DecomposeModelString` emits are the segments between the `-`
of the identifier without the last one: what follows the last `-` (the whole
identifier when it has no `-`) is never emitted, and a carriage return is a
character like any other. -/
theorem DecomposeModelString_eq_dropLast (modelString : String) :
    DecomposeModelString modelString =
      ((modelString.data.splitOn '-').dropLast).map String.mk := by
  unfold DecomposeModelString
  rw [DecomposeModelStringLoop_eq]
  cases h : List.splitOn '-' modelString.data with
  | nil => rfl
  | cons seg segs => simp

/-- C3, at the identifier of the claim: the code emits three tokens, the segment
after the last `-` is missing, where the claim has four. -/
theorem DecomposeModelString_example :
    DecomposeModelString "500-06-123-456" = ["500", "06", "123"] ∧
      DecomposeModelString "500-06-123-456" ≠ ["500", "06", "123", "456"] := by
  decide

/-- C10, at an identifier with a carriage return: the code does not stop at it,
the carriage return is part of the first token and the text after it feeds a
second token. -/
theorem DecomposeModelString_carriage_return :
    DecomposeModelString "500\r-06-" = ["500\r", "06"] := by
  decide


open CoboltOfficial

/-! ## The shutter -/

/-- When the toggle does not read on, `SetOpen` returns `laser_off` in the state the
read has left. -/
theorem CoboltOfficial.SetOpen_of_not_on {σ δ : Type} (values : Values) (host : Host σ δ)
    (laser_ : Laser) (toggle : Property) (open_ : Bool) (s : σ)
    (ht : laser_.toggleProperty_ = some toggle)
    (h : (host.Get toggle s).1 ≠ values.toggle_on.guiValue) :
    SetOpen values host laser_ open_ s =
      some (return_code.laser_off, (host.Get toggle s).2) := by
  simp [SetOpen, Laser.IsOn, ht, h]

/-- When the toggle reads on, `SetOpen` writes the pause property, off to open
and on to close, and returns ok. -/
theorem CoboltOfficial.SetOpen_of_on {σ δ : Type} (values : Values) (host : Host σ δ)
    (laser_ : Laser) (toggle paused : Property) (open_ : Bool) (s : σ)
    (ht : laser_.toggleProperty_ = some toggle) (hp : laser_.pausedProperty_ = some paused)
    (h : (host.Get toggle s).1 = values.toggle_on.guiValue) :
    SetOpen values host laser_ open_ s =
      some (return_code.ok,
        host.Set paused
          (if open_ then values.toggle_off.guiValue else values.toggle_on.guiValue)
          (host.Get toggle s).2) := by
  cases open_ <;> simp [SetOpen, Laser.IsOn, Laser.SetPaused, ht, hp, h]

/-- The function `SetOpen` returns on every laser whose two property pointers are
set. -/
theorem CoboltOfficial.SetOpen_returns {σ δ : Type} (values : Values) (host : Host σ δ)
    (laser_ : Laser) (toggle paused : Property) (open_ : Bool) (s : σ)
    (ht : laser_.toggleProperty_ = some toggle) (hp : laser_.pausedProperty_ = some paused) :
    ∃ reply s1, SetOpen values host laser_ open_ s = some (reply, s1) := by
  by_cases h : (host.Get toggle s).1 = values.toggle_on.guiValue
  · exact ⟨_, _, SetOpen_of_on values host laser_ toggle paused open_ s ht hp h⟩
  · exact ⟨_, _, SetOpen_of_not_on values host laser_ toggle open_ s ht h⟩

/-! ## The claims on the shutter and the transport -/

/-- C4, at a model whose toggle is off: `SetOpen( false )` returns `laser_off`,
not ok, and the pause stays false; the only call that reaches the host is the
read of the toggle. -/
theorem SetOpen_close_off_counterexample :
    SetOpen Examples.values Examples.host Examples.laser false
        { toggle := false, pause := false, calls := [] } =
      some (return_code.laser_off,
        { toggle := false, pause := false, calls := [.Get "On-Off Switch"] }) ∧
      return_code.laser_off ≠ return_code.ok := by
  decide

/-- C4 as amended: `SetOpen( false )` first reads the toggle.  When the toggle
does not read on, it returns `laser_off` and nothing more has happened than that
read: the pause property is not written.  When the toggle reads on, it writes
the presentation value of on to the pause property and returns ok. -/
theorem SetOpen_close {σ δ : Type} (values : Values) (host : Host σ δ) (laser_ : Laser)
    (toggle paused : Property) (s : σ)
    (ht : laser_.toggleProperty_ = some toggle) (hp : laser_.pausedProperty_ = some paused) :
    ((host.Get toggle s).1 ≠ values.toggle_on.guiValue →
        SetOpen values host laser_ false s =
          some (return_code.laser_off, (host.Get toggle s).2)) ∧
      ((host.Get toggle s).1 = values.toggle_on.guiValue →
        SetOpen values host laser_ false s =
          some (return_code.ok,
            host.Set paused values.toggle_on.guiValue (host.Get toggle s).2)) := by
  exact ⟨SetOpen_of_not_on values host laser_ toggle false s ht,
    SetOpen_of_on values host laser_ toggle paused false s ht hp⟩

/-- C4 as amended, on the example host: with the toggle on, the close sets the
pause and returns ok. -/
theorem SetOpen_close_witness :
    Examples.laser.toggleProperty_ =
        some (.BoolProperty "On-Off Switch" .OnOff "l?" "l1" "l0") ∧
      Examples.laser.pausedProperty_ = some (.LaserSimulatedPausedProperty "Paused") ∧
      SetOpen Examples.values Examples.host Examples.laser false
          { toggle := true, pause := false, calls := [] } =
        some (return_code.ok,
          { toggle := true, pause := true,
            calls := [.Get "On-Off Switch", .Set "Paused" "On"] }) :=
  ⟨rfl, rfl,
    (SetOpen_close Examples.values Examples.host Examples.laser _ _
      { toggle := true, pause := false, calls := [] } rfl rfl).2 rfl⟩

/-- C5: `SetOpen( true )` first reads the toggle.  When the toggle does not read
on, it returns `laser_off` and nothing more has happened than that read: the
pause property is not written.  When the toggle reads on, it writes the
presentation value of off to the pause property and returns ok. -/
theorem SetOpen_open {σ δ : Type} (values : Values) (host : Host σ δ) (laser_ : Laser)
    (toggle paused : Property) (s : σ)
    (ht : laser_.toggleProperty_ = some toggle) (hp : laser_.pausedProperty_ = some paused) :
    ((host.Get toggle s).1 ≠ values.toggle_on.guiValue →
        SetOpen values host laser_ true s =
          some (return_code.laser_off, (host.Get toggle s).2)) ∧
      ((host.Get toggle s).1 = values.toggle_on.guiValue →
        SetOpen values host laser_ true s =
          some (return_code.ok,
            host.Set paused values.toggle_off.guiValue (host.Get toggle s).2)) := by
  exact ⟨SetOpen_of_not_on values host laser_ toggle true s ht,
    SetOpen_of_on values host laser_ toggle paused true s ht hp⟩

/-- C5 on the example host: with the toggle off the open fails with `laser_off` and
the pause keeps its value; with the toggle on the pause is cleared. -/
theorem SetOpen_open_witness :
    Examples.laser.toggleProperty_ =
        some (.BoolProperty "On-Off Switch" .OnOff "l?" "l1" "l0") ∧
      Examples.laser.pausedProperty_ = some (.LaserSimulatedPausedProperty "Paused") ∧
      SetOpen Examples.values Examples.host Examples.laser true
          { toggle := false, pause := true, calls := [] } =
        some (return_code.laser_off,
          { toggle := false, pause := true, calls := [.Get "On-Off Switch"] }) ∧
      SetOpen Examples.values Examples.host Examples.laser true
          { toggle := true, pause := true, calls := [] } =
        some (return_code.ok,
          { toggle := true, pause := false,
            calls := [.Get "On-Off Switch", .Set "Paused" "Off"] }) :=
  ⟨rfl, rfl,
    (SetOpen_open Examples.values Examples.host Examples.laser _ _
      { toggle := false, pause := true, calls := [] } rfl rfl).1 (by decide),
    (SetOpen_open Examples.values Examples.host Examples.laser _ _
      { toggle := true, pause := true, calls := [] } rfl rfl).2 rfl⟩



/-- C6: `Fire( deltaT )` first calls `SetOpen( true )`, which returns.  When that
call does not return ok, `Fire` returns its code in the state it left: no wait, no
close.  When it returns ok, `Fire` waits `(long) ( deltaT + 0.5f )` milliseconds,
calls `SetOpen( false )` once in the state after the wait and returns what that
call returns; so the code of `Fire` is the first of the two codes that is not ok,
else ok.  When the toggle reads on before the open and again after the wait,
`Fire` returns ok and its final state is that of: read of the toggle, pause
cleared, wait, read of the toggle, pause set; if the pause property reads back
what was written to it, the pause then reads true. -/
theorem Fire_open_wait_close {σ δ : Type} (values : Values) (host : Host σ δ) (laser_ : Laser)
    (toggle paused : Property) (deltaT : δ) (s : σ)
    (ht : laser_.toggleProperty_ = some toggle) (hp : laser_.pausedProperty_ = some paused) :
    (∃ reply s1, SetOpen values host laser_ true s = some (reply, s1) ∧
      (reply ≠ return_code.ok → Fire values host laser_ deltaT s = some (reply, s1)) ∧
      (reply = return_code.ok →
        ∃ reply2 s2,
          SetOpen values host laser_ false (host.SleepMs (host.toLong deltaT) s1) =
            some (reply2, s2) ∧
          Fire values host laser_ deltaT s = some (reply2, s2))) ∧
      ((host.Get toggle s).1 = values.toggle_on.guiValue →
        (host.Get toggle (host.SleepMs (host.toLong deltaT)
          (host.Set paused values.toggle_off.guiValue (host.Get toggle s).2))).1 =
            values.toggle_on.guiValue →
        Fire values host laser_ deltaT s =
            some (return_code.ok,
              host.Set paused values.toggle_on.guiValue
                (host.Get toggle (host.SleepMs (host.toLong deltaT)
                  (host.Set paused values.toggle_off.guiValue (host.Get toggle s).2))).2) ∧
          ((∀ value s0, (host.Get paused (host.Set paused value s0)).1 = value) →
            ∃ s3, Laser.IsPaused values host laser_
              (host.Set paused values.toggle_on.guiValue
                (host.Get toggle (host.SleepMs (host.toLong deltaT)
                  (host.Set paused values.toggle_off.guiValue (host.Get toggle s).2))).2) =
              some (true, s3))) := by
  constructor
  · obtain ⟨reply, s1, h1⟩ := SetOpen_returns values host laser_ toggle paused true s ht hp
    refine ⟨reply, s1, h1, fun hne => ?_, fun hok => ?_⟩
    · simp [Fire, h1, hne]
    · obtain ⟨reply2, s2, h2⟩ := SetOpen_returns values host laser_ toggle paused false
        (host.SleepMs (host.toLong deltaT) s1) ht hp
      exact ⟨reply2, s2, h2, by simp [Fire, h1, hok, h2]⟩
  · intro h1 h2
    have ho := SetOpen_of_on values host laser_ toggle paused true s ht hp h1
    have hc := SetOpen_of_on values host laser_ toggle paused false _ ht hp h2
    simp only [if_true] at ho
    simp only [Bool.false_eq_true, if_false] at hc
    refine ⟨by simp [Fire, ho, hc], fun hlaw => ?_⟩
    simp [Laser.IsPaused, hp, hlaw]

/-- C6 at `Fire( 1000 )` on the example host with the toggle on: the calls are
those of the open, the wait of 1000 and those of the close, and the model ends
with the toggle on and the pause set. -/
theorem Fire_open_wait_close_witness :
    Examples.laser.toggleProperty_ =
        some (.BoolProperty "On-Off Switch" .OnOff "l?" "l1" "l0") ∧
      Examples.laser.pausedProperty_ = some (.LaserSimulatedPausedProperty "Paused") ∧
      Fire Examples.values Examples.host Examples.laser 1000
          { toggle := true, pause := true, calls := [] } =
        some (return_code.ok,
          { toggle := true, pause := true,
            calls := [.Get "On-Off Switch", .Set "Paused" "Off", .SleepMs 1000,
              .Get "On-Off Switch", .Set "Paused" "On"] }) :=
  ⟨rfl, rfl,
    ((Fire_open_wait_close Examples.values Examples.host Examples.laser _ _ 1000
      { toggle := true, pause := true, calls := [] } rfl rfl).2 rfl rfl).1⟩

/-- C7: when the channel write returns ok and the channel read returns ok with
the text `answer`, `SendCommand` with a response pointer returns
`unsupported_command`, which is 11, exactly when `answer` holds `error` as a block
of consecutive characters, compared character by character, and ok exactly when
it does not; the text is handed to the caller in both cases. -/
theorem SendCommand_error_iff {σ : Type} (serial : SerialPort σ) (port_ command initial : String)
    (answer : String) (s s1 s2 : σ)
    (hw : serial.SendSerialCommand port_ command "\r" s = (return_code.ok, s1))
    (hr : serial.GetSerialAnswer port_ "\r\n" s1 = ((return_code.ok, answer), s2)) :
    ((SendCommand serial port_ command (some initial) s).1.1 = return_code.unsupported_command ↔
        "error".data <:+: answer.data) ∧
      ((SendCommand serial port_ command (some initial) s).1.1 = return_code.ok ↔
        ¬ "error".data <:+: answer.data) ∧
      (SendCommand serial port_ command (some initial) s).1.2 = some answer ∧
      return_code.unsupported_command = 11 := by
  by_cases h : "error".data <:+: answer.data
  · have hf : find answer "error" ≠ npos := (find_ne_npos_iff _ _).mpr h
    have : SendCommand serial port_ command (some initial) s =
        ((return_code.unsupported_command, some answer), s2) := by
      simp only [SendCommand, hw, hr, ne_eq, not_true_eq_false, if_false]
      rw [if_pos hf]
    rw [this]
    simp [h, return_code.unsupported_command, return_code.ok]
  · have hf : ¬ find answer "error" ≠ npos := fun hf => h ((find_ne_npos_iff _ _).mp hf)
    have : SendCommand serial port_ command (some initial) s =
        ((return_code.ok, some answer), s2) := by
      simp only [SendCommand, hw, hr, ne_eq, not_true_eq_false, if_false]
      rw [if_neg hf]
    rw [this]
    simp [h, return_code.unsupported_command, return_code.ok]

/-- C7 on a channel that answers `ERROR`, in capitals: the command is accepted. -/
theorem SendCommand_error_iff_witness :
    (Examples.serial "ERROR").SendSerialCommand "COM1" "l0r" "\r" 0 = (return_code.ok, 1) ∧
      (Examples.serial "ERROR").GetSerialAnswer "COM1" "\r\n" 1 =
        ((return_code.ok, "ERROR"), 2) ∧
      (SendCommand (Examples.serial "ERROR") "COM1" "l0r" (some "") 0).1.1 = return_code.ok :=
  ⟨rfl, rfl,
    (SendCommand_error_iff (Examples.serial "ERROR") "COM1" "l0r" "" "ERROR" 0 1 2 rfl
      rfl).2.1.mpr (by decide)⟩


/-! ## The pause property and the registry, branch by branch -/

namespace Laser

theorem new_paused (name : String) (device : LaserDevice) (sent : List String) :
    (Laser.new name device sent).2 = sent ++ ["l0r"] ∧
    (Laser.new name device sent).1.pausedProperty_ =
      some ((if (IsPauseCommandSupported device sent).1 then Property.LaserPausedProperty "Paused"
        else Property.LaserSimulatedPausedProperty "Paused")) ∧
    mapFind (Laser.new name device sent).1.properties_ "Paused" =
      (Laser.new name device sent).1.pausedProperty_ := by
  unfold Laser.new CreatePausedProperty
  generalize h1 : IsPauseCommandSupported device sent = r1
  rcases r1 with ⟨b1, s1⟩
  obtain rfl : sent ++ ["l0r"] = s1 := congrArg Prod.snd h1
  cases b1 <;> exact ⟨rfl, rfl, rfl⟩

theorem Create05_paused (device : LaserDevice) (sent : List String) :
    (Create05 device sent).2 = sent ++ ["l0r"] ++ ["l0r"] ∧
    (Create05 device sent).1.pausedProperty_ =
      some ((if (IsPauseCommandSupported device (sent ++ ["l0r"])).1 then Property.LaserPausedProperty "Paused"
        else Property.LaserSimulatedPausedProperty "Paused")) ∧
    mapFind (Create05 device sent).1.properties_ "Paused" =
      (Create05 device sent).1.pausedProperty_ := by
  unfold Create05 Laser.new CreatePausedProperty
  generalize h1 : IsPauseCommandSupported device sent = r1
  rcases r1 with ⟨b1, s1⟩
  obtain rfl : sent ++ ["l0r"] = s1 := congrArg Prod.snd h1
  dsimp only
  generalize h2 : IsPauseCommandSupported device (sent ++ ["l0r"]) = r2
  rcases r2 with ⟨b2, s2⟩
  obtain rfl : sent ++ ["l0r"] ++ ["l0r"] = s2 := congrArg Prod.snd h2
  cases b1 <;> cases b2 <;> exact ⟨rfl, rfl, rfl⟩

theorem Create06_paused (values : Values) (device : LaserDevice) (sent : List String) :
    (Create06 values device sent).2 = sent ++ ["l0r"] ++ ["l0r"] ∧
    (Create06 values device sent).1.pausedProperty_ =
      some ((if (IsPauseCommandSupported device (sent ++ ["l0r"])).1 then Property.LaserPausedProperty "Paused"
        else Property.LaserSimulatedPausedProperty "Paused")) ∧
    mapFind (Create06 values device sent).1.properties_ "Paused" =
      (Create06 values device sent).1.pausedProperty_ := by
  unfold Create06 Laser.new CreatePausedProperty
  generalize h1 : IsPauseCommandSupported device sent = r1
  rcases r1 with ⟨b1, s1⟩
  obtain rfl : sent ++ ["l0r"] = s1 := congrArg Prod.snd h1
  dsimp only
  generalize h2 : IsPauseCommandSupported device (sent ++ ["l0r"]) = r2
  rcases r2 with ⟨b2, s2⟩
  obtain rfl : sent ++ ["l0r"] ++ ["l0r"] = s2 := congrArg Prod.snd h2
  cases b1 <;> cases b2 <;> exact ⟨rfl, rfl, rfl⟩

/-- The variant of the pause property follows the response to the probe. -/
theorem pausedVariant_probe (device : LaserDevice) (hist : List String) :
    (some ((if (IsPauseCommandSupported device hist).1 then Property.LaserPausedProperty "Paused"
        else Property.LaserSimulatedPausedProperty "Paused")) =
        some (Property.LaserPausedProperty "Paused") ↔
      "OK".data <:+: (device.SendCommand hist "l0r").2.data) ∧
    (some ((if (IsPauseCommandSupported device hist).1 then Property.LaserPausedProperty "Paused"
        else Property.LaserSimulatedPausedProperty "Paused")) =
        some (Property.LaserSimulatedPausedProperty "Paused") ↔
      ¬ "OK".data <:+: (device.SendCommand hist "l0r").2.data) := by
  rw [← IsPauseCommandSupported_fst]
  cases (IsPauseCommandSupported device hist).1 <;> simp

theorem new_names (name : String) (device : LaserDevice) (sent : List String) :
    (Laser.new name device sent).1.properties_.map Prod.fst =
      ["Name", "Model", "Wavelength", "Serial Number", "Firmware Version", "Operating Hours",
        "Paused", "On-Off Switch"] := by
  unfold Laser.new CreatePausedProperty
  generalize IsPauseCommandSupported device sent = r1
  rcases r1 with ⟨b1, s1⟩
  cases b1 <;> rfl

theorem Create05_names (device : LaserDevice) (sent : List String) :
    (Create05 device sent).1.properties_.map Prod.fst =
      ["Name", "Model", "Wavelength", "Serial Number", "Firmware Version", "Operating Hours",
        "Paused", "On-Off Switch", "Current Setpoint [A]", "Measured Current [A]",
        "Power Setpoint [mW]", "Power Reading [mW]", "Run Mode"] ∧
    mapFind (Create05 device sent).1.properties_ "Run Mode" =
      some (.EnumerationProperty "Run Mode" "gam?" "sam"
        [⟨"0", "Constant Current"⟩, ⟨"1", "Constant Power"⟩]) := by
  unfold Create05 Laser.new CreatePausedProperty
  generalize IsPauseCommandSupported device sent = r1
  rcases r1 with ⟨b1, s1⟩
  dsimp only
  generalize IsPauseCommandSupported device s1 = r2
  rcases r2 with ⟨b2, s2⟩
  cases b1 <;> cases b2 <;> exact ⟨rfl, rfl⟩

theorem Create06_names (values : Values) (device : LaserDevice) (sent : List String) :
    (Create06 values device sent).1.properties_.map Prod.fst =
      ["Name", "Model", "Wavelength", "Serial Number", "Firmware Version", "Operating Hours",
        "Paused", "On-Off Switch", "Current Setpoint [mA]", "Measured Current [mA]",
        "Power Setpoint [mW]", "Power Reading [mW]", "Run Mode", "Digital Modulation",
        "Analog Modulation", "Modulation Power Setpoint", "Analog Impedance"] ∧
    mapFind (Create06 values device sent).1.properties_ "Run Mode" =
      some (.EnumerationProperty "Run Mode" "gam?" "sam"
        [⟨"0", "Constant Current"⟩, ⟨"1", "Constant Power"⟩, ⟨"2", "Modulation"⟩]) := by
  unfold Create06 Laser.new CreatePausedProperty
  generalize IsPauseCommandSupported device sent = r1
  rcases r1 with ⟨b1, s1⟩
  dsimp only
  generalize IsPauseCommandSupported device s1 = r2
  rcases r2 with ⟨b2, s2⟩
  cases b1 <;> cases b2 <;> exact ⟨rfl, rfl⟩

end Laser

/-! ## The claims on the pause property and the registry -/

/-- C8: when `glm?` returns ok, `Laser::Create` returns a model, and the last
command it sends is the pause probe `l0r`.  The pause property the model points
to is the one registered under `Paused`; it is the device-backed variant exactly
when the text received for that probe holds `OK`, and the simulated variant
exactly when it does not, whatever the return code of the probe. -/
theorem Create_paused_variant (values : Values) (device : LaserDevice) (sent : List String)
    (hok : (device.SendCommand sent "glm?").1 = return_code.ok) :
    ∃ laser hist, Laser.Create values device sent = (some laser, hist ++ ["l0r"]) ∧
      mapFind laser.properties_ "Paused" = laser.pausedProperty_ ∧
      (laser.pausedProperty_ = some (.LaserPausedProperty "Paused") ↔
        "OK".data <:+: (device.SendCommand hist "l0r").2.data) ∧
      (laser.pausedProperty_ = some (.LaserSimulatedPausedProperty "Paused") ↔
        ¬ "OK".data <:+: (device.SendCommand hist "l0r").2.data) := by
  by_cases h6 : "-06-".data <:+: (device.SendCommand sent "glm?").2.data
  · obtain ⟨w, hw⟩ := Laser.Create_06 values device sent hok h6
    obtain ⟨htrace, hp, hreg⟩ := Laser.Create06_paused values device (sent ++ ["glm?"])
    refine ⟨{ (Laser.Create06 values device (sent ++ ["glm?"])).1 with wavelength_ := w },
      sent ++ ["glm?"] ++ ["l0r"], hw.trans (by rw [htrace]), ?_, ?_⟩
    · dsimp only
      exact hreg
    · dsimp only
      rw [hp]
      exact Laser.pausedVariant_probe device _
  · by_cases h5 : "-05-".data <:+: (device.SendCommand sent "glm?").2.data
    · obtain ⟨w, hw⟩ := Laser.Create_05 values device sent hok h6 h5
      obtain ⟨htrace, hp, hreg⟩ := Laser.Create05_paused device (sent ++ ["glm?"])
      refine ⟨{ (Laser.Create05 device (sent ++ ["glm?"])).1 with wavelength_ := w },
        sent ++ ["glm?"] ++ ["l0r"], hw.trans (by rw [htrace]), ?_, ?_⟩
      · dsimp only
        exact hreg
      · dsimp only
        rw [hp]
        exact Laser.pausedVariant_probe device _
    · obtain ⟨w, hw⟩ := Laser.Create_unknown values device sent hok h6 h5
      obtain ⟨htrace, hp, hreg⟩ := Laser.new_paused "Unknown" device (sent ++ ["glm?"])
      refine ⟨{ (Laser.new "Unknown" device (sent ++ ["glm?"])).1 with wavelength_ := w },
        sent ++ ["glm?"], hw.trans (by rw [htrace]), ?_, ?_⟩
      · dsimp only
        exact hreg
      · dsimp only
        rw [hp]
        exact Laser.pausedVariant_probe device _

/-- C8 on a device of family `06-DPL` that answers the first probe with `OK` and
the second with an error text: the model is returned, and its pause property is
the simulated one, as the last response decides. -/
theorem Create_paused_variant_witness :
    (Examples.device (return_code.ok, "0405-06-01-0100")
        [(return_code.ok, "OK"), (return_code.unsupported_command, "Syntax error")]).SendCommand
          [] "glm?" = (return_code.ok, "0405-06-01-0100") ∧
      ∃ laser,
        Laser.Create Examples.values
            (Examples.device (return_code.ok, "0405-06-01-0100")
              [(return_code.ok, "OK"), (return_code.unsupported_command, "Syntax error")]) [] =
          (some laser, ["glm?", "l0r", "l0r"]) ∧
        laser.pausedProperty_ = some (.LaserSimulatedPausedProperty "Paused") := by
  refine ⟨rfl, ?_⟩
  obtain ⟨laser, hist, hl, -, -, hsim⟩ := Create_paused_variant Examples.values
    (Examples.device (return_code.ok, "0405-06-01-0100")
      [(return_code.ok, "OK"), (return_code.unsupported_command, "Syntax error")]) [] rfl
  have h2 : hist ++ ["l0r"] = ["glm?", "l0r"] ++ ["l0r"] :=
    (congrArg Prod.snd hl).symm.trans (by decide)
  obtain rfl : hist = ["glm?", "l0r"] := List.append_cancel_right h2
  exact ⟨laser, hl, hsim.mpr (by decide)⟩

/-- C9: when `glm?` returns ok, the names `Laser::Create` registers follow from
the family.  An identifier that holds `-06-` registers the eight base names, the
two setpoints and the two readings in `mA` and `mW`, `Run Mode` with the entries 0
`Constant Current`, 1 `Constant Power`, 2 `Modulation` in that order, and the four
modulation properties.  Else an identifier that holds `-05-` registers the base
names, the setpoints and readings in `A` and `mW`, and `Run Mode` with the entries 0
`Constant Current`, 1 `Constant Power` in that order.  Any other identifier
registers the eight base names and nothing else. -/
theorem Create_registers_by_family (values : Values) (device : LaserDevice)
    (sent : List String) (hok : (device.SendCommand sent "glm?").1 = return_code.ok) :
    ∃ laser, (Laser.Create values device sent).1 = some laser ∧
      ("-06-".data <:+: (device.SendCommand sent "glm?").2.data →
        laser.properties_.map Prod.fst =
          ["Name", "Model", "Wavelength", "Serial Number", "Firmware Version",
            "Operating Hours", "Paused", "On-Off Switch", "Current Setpoint [mA]",
            "Measured Current [mA]", "Power Setpoint [mW]", "Power Reading [mW]", "Run Mode",
            "Digital Modulation", "Analog Modulation", "Modulation Power Setpoint",
            "Analog Impedance"] ∧
        mapFind laser.properties_ "Run Mode" =
          some (.EnumerationProperty "Run Mode" "gam?" "sam"
            [⟨"0", "Constant Current"⟩, ⟨"1", "Constant Power"⟩, ⟨"2", "Modulation"⟩])) ∧
      (¬ "-06-".data <:+: (device.SendCommand sent "glm?").2.data →
        "-05-".data <:+: (device.SendCommand sent "glm?").2.data →
        laser.properties_.map Prod.fst =
          ["Name", "Model", "Wavelength", "Serial Number", "Firmware Version",
            "Operating Hours", "Paused", "On-Off Switch", "Current Setpoint [A]",
            "Measured Current [A]", "Power Setpoint [mW]", "Power Reading [mW]", "Run Mode"] ∧
        mapFind laser.properties_ "Run Mode" =
          some (.EnumerationProperty "Run Mode" "gam?" "sam"
            [⟨"0", "Constant Current"⟩, ⟨"1", "Constant Power"⟩])) ∧
      (¬ "-06-".data <:+: (device.SendCommand sent "glm?").2.data →
        ¬ "-05-".data <:+: (device.SendCommand sent "glm?").2.data →
        laser.properties_.map Prod.fst =
          ["Name", "Model", "Wavelength", "Serial Number", "Firmware Version",
            "Operating Hours", "Paused", "On-Off Switch"]) := by
  by_cases h6 : "-06-".data <:+: (device.SendCommand sent "glm?").2.data
  · obtain ⟨w, hw⟩ := Laser.Create_06 values device sent hok h6
    refine ⟨_, congrArg Prod.fst hw, fun _ => ?_, fun h => absurd h6 h, fun h => absurd h6 h⟩
    dsimp only
    exact Laser.Create06_names values device _
  · by_cases h5 : "-05-".data <:+: (device.SendCommand sent "glm?").2.data
    · obtain ⟨w, hw⟩ := Laser.Create_05 values device sent hok h6 h5
      refine ⟨_, congrArg Prod.fst hw, fun h => absurd h h6, fun _ _ => ?_,
        fun _ h => absurd h5 h⟩
      dsimp only
      exact Laser.Create05_names device _
    · obtain ⟨w, hw⟩ := Laser.Create_unknown values device sent hok h6 h5
      refine ⟨_, congrArg Prod.fst hw, fun h => absurd h h6, fun _ h => absurd h h5,
        fun _ _ => ?_⟩
      dsimp only
      exact Laser.new_names "Unknown" device _

/-- C9 at the identifier `0638-05-01`, of family `Compact 05`: thirteen names, two
run modes. -/
theorem Create_registers_by_family_witness :
    (Examples.device (return_code.ok, "0638-05-01") []).SendCommand [] "glm?" =
        (return_code.ok, "0638-05-01") ∧
      ∃ laser,
        (Laser.Create Examples.values (Examples.device (return_code.ok, "0638-05-01") [])
          []).1 = some laser ∧
        laser.properties_.map Prod.fst =
          ["Name", "Model", "Wavelength", "Serial Number", "Firmware Version",
            "Operating Hours", "Paused", "On-Off Switch", "Current Setpoint [A]",
            "Measured Current [A]", "Power Setpoint [mW]", "Power Reading [mW]", "Run Mode"] ∧
        mapFind laser.properties_ "Run Mode" =
          some (.EnumerationProperty "Run Mode" "gam?" "sam"
            [⟨"0", "Constant Current"⟩, ⟨"1", "Constant Power"⟩]) := by
  refine ⟨rfl, ?_⟩
  obtain ⟨laser, hl, -, h5, -⟩ := Create_registers_by_family Examples.values
    (Examples.device (return_code.ok, "0638-05-01") []) [] rfl
  exact ⟨laser, hl, h5 (by decide) (by decide)⟩

/-! ## The wavelength -/

/-- After `properties_[ name ] = property`, the entry of that name is `property`. -/
theorem mapFind_mapAssign (properties : List (String × Property)) (name : String)
    (property : Property) : mapFind (mapAssign properties name property) name = some property := by
  induction properties with
  | nil => simp [mapAssign, mapFind]
  | cons entry rest ih =>
    obtain ⟨k, v⟩ := entry
    by_cases h : k = name
    · simp [mapAssign, mapFind, h]
    · simp [mapAssign, mapFind, h, ih]

namespace Laser

/-- The function `CreateWavelengthProperty` hands the wavelength member, as it is at
the call, to the static property it registers. -/
theorem CreateWavelengthProperty_value (laser : Laser) :
    mapFind laser.CreateWavelengthProperty.properties_ "Wavelength" =
        some (.StaticStringProperty "Wavelength" laser.wavelength_) ∧
      laser.CreateWavelengthProperty.wavelength_ = laser.wavelength_ :=
  ⟨mapFind_mapAssign _ _ _, rfl⟩

theorem new_wavelength (name : String) (device : LaserDevice) (sent : List String) :
    (Laser.new name device sent).1.wavelength_ = "Unknown" ∧
    mapFind (Laser.new name device sent).1.properties_ "Wavelength" =
      some (.StaticStringProperty "Wavelength" "Unknown") := by
  unfold Laser.new CreatePausedProperty
  generalize IsPauseCommandSupported device sent = r1
  rcases r1 with ⟨b1, s1⟩
  cases b1 <;> exact ⟨rfl, rfl⟩

theorem Create05_wavelength (device : LaserDevice) (sent : List String) :
    (Create05 device sent).1.wavelength_ = "Unknown" ∧
    mapFind (Create05 device sent).1.properties_ "Wavelength" =
      some (.StaticStringProperty "Wavelength" "Unknown") := by
  unfold Create05 Laser.new CreatePausedProperty
  generalize IsPauseCommandSupported device sent = r1
  rcases r1 with ⟨b1, s1⟩
  dsimp only
  generalize IsPauseCommandSupported device s1 = r2
  rcases r2 with ⟨b2, s2⟩
  cases b1 <;> cases b2 <;> exact ⟨rfl, rfl⟩

theorem Create06_wavelength (values : Values) (device : LaserDevice) (sent : List String) :
    (Create06 values device sent).1.wavelength_ = "Unknown" ∧
    mapFind (Create06 values device sent).1.properties_ "Wavelength" =
      some (.StaticStringProperty "Wavelength" "Unknown") := by
  unfold Create06 Laser.new CreatePausedProperty
  generalize IsPauseCommandSupported device sent = r1
  rcases r1 with ⟨b1, s1⟩
  dsimp only
  generalize IsPauseCommandSupported device s1 = r2
  rcases r2 with ⟨b2, s2⟩
  cases b1 <;> cases b2 <;> exact ⟨rfl, rfl⟩

/-- The wavelength member of the laser `Create` returns: token 0 of the
identifier when there is a token, else `Unknown`. -/
theorem Create_wavelength (values : Values) (device : LaserDevice) (sent : List String)
    (hok : (device.SendCommand sent "glm?").1 = return_code.ok) :
    ∃ laser, (Create values device sent).1 = some laser ∧
      laser.wavelength_ =
        if (DecomposeModelString (device.SendCommand sent "glm?").2).length > 0 then
          (DecomposeModelString (device.SendCommand sent "glm?").2).headD ""
        else "Unknown" := by
  rcases hglm : device.SendCommand sent "glm?" with ⟨reply, m⟩
  rw [hglm] at hok
  simp only at hok
  subst hok
  simp only [Create, hglm, ne_eq, not_true_eq_false, if_false]
  by_cases hlen : (DecomposeModelString m).length > 0
  · rw [if_pos hlen, if_pos hlen]
    exact ⟨_, rfl, rfl⟩
  · rw [if_neg hlen, if_neg hlen]
    exact ⟨_, rfl, rfl⟩

end Laser

/-! ## The claim on the wavelength property -/

/-- C11: when `glm?` returns ok, the static property registered under `Wavelength`
in the model `Laser::Create` returns holds `Unknown`, while the wavelength member of
the model is token 0 of the identifier when `DecomposeModelString` gives a token.
The value is `Unknown` at every registration: `CreateWavelengthProperty` hands the
wavelength member as it is at the call and leaves it as it is, the constructor
ends with the member and the registered value both `Unknown` whatever the name,
and `Create` assigns the member only after the family branch. -/
theorem Create_wavelength_property_unknown (values : Values) (device : LaserDevice)
    (sent : List String) (hok : (device.SendCommand sent "glm?").1 = return_code.ok) :
    (∃ laser, (Laser.Create values device sent).1 = some laser ∧
        mapFind laser.properties_ "Wavelength" =
          some (.StaticStringProperty "Wavelength" "Unknown") ∧
        laser.wavelength_ =
          if (DecomposeModelString (device.SendCommand sent "glm?").2).length > 0 then
            (DecomposeModelString (device.SendCommand sent "glm?").2).headD ""
          else "Unknown") ∧
      (∀ name : String,
        (Laser.new name device (sent ++ ["glm?"])).1.wavelength_ = "Unknown" ∧
        mapFind (Laser.new name device (sent ++ ["glm?"])).1.properties_ "Wavelength" =
          some (.StaticStringProperty "Wavelength" "Unknown")) ∧
      (∀ laser : Laser,
        mapFind laser.CreateWavelengthProperty.properties_ "Wavelength" =
            some (.StaticStringProperty "Wavelength" laser.wavelength_) ∧
          laser.CreateWavelengthProperty.wavelength_ = laser.wavelength_) := by
  refine ⟨?_, fun name => Laser.new_wavelength name device _,
    Laser.CreateWavelengthProperty_value⟩
  obtain ⟨laser, hl, hwl⟩ := Laser.Create_wavelength values device sent hok
  refine ⟨laser, hl, ?_, hwl⟩
  by_cases h6 : "-06-".data <:+: (device.SendCommand sent "glm?").2.data
  · obtain ⟨w, hw⟩ := Laser.Create_06 values device sent hok h6
    obtain rfl := Option.some.inj (hl.symm.trans (congrArg Prod.fst hw))
    dsimp only
    exact (Laser.Create06_wavelength values device _).2
  · by_cases h5 : "-05-".data <:+: (device.SendCommand sent "glm?").2.data
    · obtain ⟨w, hw⟩ := Laser.Create_05 values device sent hok h6 h5
      obtain rfl := Option.some.inj (hl.symm.trans (congrArg Prod.fst hw))
      dsimp only
      exact (Laser.Create05_wavelength device _).2
    · obtain ⟨w, hw⟩ := Laser.Create_unknown values device sent hok h6 h5
      obtain rfl := Option.some.inj (hl.symm.trans (congrArg Prod.fst hw))
      dsimp only
      exact (Laser.new_wavelength "Unknown" device _).2

/-- C11 at the identifier `0532-06-05-0100`: the wavelength member is `0532`, the
property registered under `Wavelength` holds `Unknown`. -/
theorem Create_wavelength_property_unknown_witness :
    (Examples.device (return_code.ok, "0532-06-05-0100") []).SendCommand [] "glm?" =
        (return_code.ok, "0532-06-05-0100") ∧
      ∃ laser,
        (Laser.Create Examples.values
          (Examples.device (return_code.ok, "0532-06-05-0100") []) []).1 = some laser ∧
        mapFind laser.properties_ "Wavelength" =
          some (.StaticStringProperty "Wavelength" "Unknown") ∧
        laser.wavelength_ = "0532" := by
  refine ⟨rfl, ?_⟩
  obtain ⟨⟨laser, hl, hreg, hwl⟩, -, -⟩ := Create_wavelength_property_unknown Examples.values
    (Examples.device (return_code.ok, "0532-06-05-0100") []) [] rfl
  exact ⟨laser, hl, hreg, hwl.trans (by decide)⟩

end cobolt
